import Mathlib

/-!
Shallow embedding of `src/jamfclient/jamfclient.py` (class `JamfProClient`).

The HTTP transport is modelled as an oracle `Server : Request → JamfResponse`.
Every client method is translated into a Lean function that returns its
Python return value together with the ordered list of HTTP requests it
issued (the request trace).  Python dicts used as query parameters are
modelled as insertion-ordered association lists with Python's
insert-or-update assignment semantics (`dictSet`).  Python truthiness of
the optional arguments (`if sort`, `if filter`, `if device_ids`, ...) is
modelled explicitly: `None`, empty strings, empty lists and `0` are falsy.
The `while page != total_pages` loops are embedded as fuel-indexed
recursion; callers supply fuel `total_pages`, which is exactly the number
of iterations the Python loop performs from `page = 0`.
-/

namespace JamfClient

/-- A record returned by the API: the client treats it as an opaque JSON object. -/
abbrev Record := String

/-- HTTP method of a request. -/
inductive Method where
  | get
  | post
  | put
  | delete
deriving DecidableEq, Repr

/-- A Python value placed into a query-parameter dict.  `pnone` is Python's
`None` (the `requests` library then omits the parameter from the query). -/
inductive PVal where
  | s (v : String)
  | i (v : Int)
  | b (v : Bool)
  | strs (vs : List String)
  | ints (vs : List Int)
  | pnone
deriving DecidableEq, Repr

/-- A key of the `push_macos_updates` payload dict: the source uses the literal
strings plus, by a bug, the boolean value of `force_restart` itself as a key. -/
inductive PKey where
  | kstr (s : String)
  | kbool (b : Bool)
deriving DecidableEq, Repr

/-- Query parameters / JSON payloads: an insertion-ordered dict. -/
abbrev Params := List (String × PVal)

/-- Python dict assignment `d[k] = v`: update in place if the key exists,
otherwise append at the end (insertion order preserved). -/
def dictSet : Params → String → PVal → Params
  | [], k, v => [(k, v)]
  | (k', v') :: d, k, v =>
      if k' = k then (k, v) :: d else (k', v') :: dictSet d k v

/-- Python dict lookup `d[k]` as an option. -/
def dictGet : Params → String → Option PVal
  | [], _ => Option.none
  | (k', v') :: d, k => if k' = k then some v' else dictGet d k

/-- An HTTP request as issued through the `requests` session. -/
structure Request where
  method : Method
  url : String
  params : Params
  body : Option Params
  basicAuth : Option (String × String)
deriving DecidableEq, Repr

/-- A server response: HTTP status plus the JSON fields the client reads.
`body` stands for the whole JSON document (`response.json()`), opaquely;
`results`, `totalCount` and `token` are the fields the client extracts. -/
structure JamfResponse where
  status : Nat
  body : String
  results : List Record
  totalCount : Nat
  token : String
deriving DecidableEq, Repr

/-- The transport oracle: what the server answers to each request. -/
abbrev Server := Request → JamfResponse

/-- The attributes `__init__` stores on the client instance. -/
structure Client where
  base_url : String
  username : String
  password : String
  verify_cert : Bool
deriving DecidableEq, Repr

/-- `JamfProClient.__init__`: composes `https://{base_url}/api`. -/
def mkClient (username password base_url : String) (verify_cert : Bool) : Client :=
  { base_url := "https://" ++ base_url ++ "/api"
    username := username
    password := password
    verify_cert := verify_cert }

/-- Python attribute lookup on the client instance: only the attributes set
in `__init__` resolve; anything else raises `AttributeError`. -/
def pyGetAttr (c : Client) (a : String) : Option String :=
  if a = "base_url" then some c.base_url
  else if a = "username" then some c.username
  else if a = "password" then some c.password
  else Option.none

/-- The mutable `requests` session state: its `headers` dict (the source
replaces it wholesale with `self.session.headers = headers`). -/
structure SessionState where
  headers : List (String × String)
deriving DecidableEq, Repr

/-- Python truthiness of an optional list of strings. -/
def pyTruthyList (l : Option (List String)) : Bool :=
  match l with
  | Option.none => false
  | some xs => !xs.isEmpty

/-- Python truthiness of an optional string. -/
def pyTruthyStr (s : Option String) : Bool :=
  match s with
  | Option.none => false
  | some v => !v.isEmpty

/-- Python truthiness of an optional int. -/
def pyTruthyInt (n : Option Int) : Bool :=
  match n with
  | Option.none => false
  | some v => v != 0

/-- Python truthiness of an optional list of ints. -/
def pyTruthyIntList (l : Option (List Int)) : Bool :=
  match l with
  | Option.none => false
  | some xs => !xs.isEmpty

/-! ## Session manager (`authenticate`, `invalidate_token`, `refresh_token`) -/

/-- The request `authenticate` issues: POST `{base}/v1/auth/token` with
HTTP Basic credentials. -/
def authReq (c : Client) : Request :=
  { method := .post
    url := c.base_url ++ "/v1/auth/token"
    params := []
    body := Option.none
    basicAuth := some (c.username, c.password) }

/-- `authenticate()`: POST `{base}/v1/auth/token` with Basic auth; on 200 the
session headers become exactly `{'Authorization': 'Bearer <token>'}`; on any
other status it prints and returns the string `'Authentication failed!'`
(Python implicitly returns `None` on the success path). -/
def authenticate (srv : Server) (c : Client) (st : SessionState) :
    Option String × SessionState × List Request :=
  let req := authReq c
  let response := srv req
  if response.status = 200 then
    (Option.none,
     { headers := [("Authorization", "Bearer " ++ response.token)] },
     [req])
  else
    (some "Authentication failed!", st, [req])

/-- The request `invalidate_token` issues. -/
def invalidateReq (c : Client) : Request :=
  { method := .post
    url := c.base_url ++ "/v1/auth/invalidate-token"
    params := []
    body := Option.none
    basicAuth := Option.none }

/-- `invalidate_token()`: POST the invalidation endpoint, return
`status == 204`; the session state is not touched. -/
def invalidate_token (srv : Server) (c : Client) (st : SessionState) :
    Bool × SessionState × List Request :=
  let req := invalidateReq c
  let response := srv req
  (response.status == 204, st, [req])

/-- The request `refresh_token` issues. -/
def keepAliveReq (c : Client) : Request :=
  { method := .post
    url := c.base_url ++ "/v1/auth/keep-alive"
    params := []
    body := Option.none
    basicAuth := Option.none }

/-- `refresh_token()`: POST keep-alive; on 200 the session headers become
`{'Authorization': f'Beaerer {token}'}` (sic — the source misspells
`Bearer`); otherwise it returns the string `'Token refresh failed!'`. -/
def refresh_token (srv : Server) (c : Client) (st : SessionState) :
    Option String × SessionState × List Request :=
  let req := keepAliveReq c
  let response := srv req
  if response.status = 200 then
    (Option.none,
     { headers := [("Authorization", "Beaerer " ++ response.token)] },
     [req])
  else
    (some "Token refresh failed!", st, [req])

/-! ## The paginated collection fetch -/

/-- Result of a listing call: either the accumulated records, or the
single-element error list `[{'Error': msg}]` the source returns on failure. -/
inductive ListResult where
  | recs (records : List Record)
  | err (msg : String)
deriving DecidableEq, Repr

/-- The `while page != total_pages` loop shared by all listing methods:
increment `page`, set `params['page'] = page`, GET `url`, on 200 append
`results` and continue, on any other status return
`[{'Error': f'Failed iteration - {status}'}]`.  `fuel` bounds the number of
iterations; every caller passes `fuel = total_pages`, which is exact for the
loop started at `page = 0`. -/
def pageLoop (srv : Server) (url : String) :
    Nat → Params → List Record → Nat → Nat → ListResult × List Request
  | 0, _, acc, _, _ => (.recs acc, [])
  | fuel + 1, params, acc, page, total_pages =>
      if page = total_pages then (.recs acc, [])
      else
        let page' := page + 1
        let params' := dictSet params "page" (.i page')
        let req : Request :=
          { method := .get
            url := url
            params := params'
            body := Option.none
            basicAuth := Option.none }
        let response := srv req
        if response.status = 200 then
          let rest := pageLoop srv url fuel params' (acc ++ response.results) page' total_pages
          (rest.1, req :: rest.2)
        else
          (.err ("Failed iteration - " ++ toString response.status), [req])

/-- The query parameters `get_categories` builds before its first request:
`{'page-size': page_size}`, then `params['sort']` and `params['filter']`,
absent options serialized as the empty string. -/
def categoriesParams (page_size : Nat) (sort : Option (List String))
    (filter : Option String) : Params :=
  let params : Params := [("page-size", .i page_size)]
  let params := dictSet params "sort"
    (if pyTruthyList sort then .s (String.intercalate "," (sort.getD [])) else .s "")
  dictSet params "filter"
    (if pyTruthyStr filter then .s (filter.getD "") else .s "")

/-- The initial (page-less) request of `get_categories`. -/
def categoriesInitReq (c : Client) (page_size : Nat) (sort : Option (List String))
    (filter : Option String) : Request :=
  { method := .get
    url := c.base_url ++ "/v1/categories"
    params := categoriesParams page_size sort filter
    body := Option.none
    basicAuth := Option.none }

/-- `get_categories(page_size, sort, filter)`: initial request without a
`page` parameter; on 200 read `results` and `totalCount`, set
`total_pages = totalCount // page_size`, and run the paging loop; on a
non-200 first response return `[{'Error': f'Failed to retrieve records
- {status}'}]`. -/
def get_categories (srv : Server) (c : Client) (page_size : Nat)
    (sort : Option (List String)) (filter : Option String) :
    ListResult × List Request :=
  let req := categoriesInitReq c page_size sort filter
  let response := srv req
  if response.status = 200 then
    let results := response.results
    let total := response.totalCount
    let total_pages := total / page_size
    let rest := pageLoop srv (c.base_url ++ "/v1/categories") total_pages
      (categoriesParams page_size sort filter) results 0 total_pages
    (rest.1, req :: rest.2)
  else
    (.err ("Failed to retrieve records - " ++ toString response.status), [req])

/-- The initial request of `get_category_history id`: it targets
`{base}/v1/categories/{id}/history`. -/
def categoryHistoryInitReq (c : Client) (id : String) (page_size : Nat)
    (sort : Option (List String)) (filter : Option String) : Request :=
  { method := .get
    url := c.base_url ++ "/v1/categories/" ++ id ++ "/history"
    params := categoriesParams page_size sort filter
    body := Option.none
    basicAuth := Option.none }

/-- `get_category_history(id, page_size, sort, filter)`: same shape as
`get_categories`, but note the source's paging loop requests
`{base}/v1/categories` — not the history endpoint the initial request used. -/
def get_category_history (srv : Server) (c : Client) (id : String)
    (page_size : Nat) (sort : Option (List String)) (filter : Option String) :
    ListResult × List Request :=
  let req := categoryHistoryInitReq c id page_size sort filter
  let response := srv req
  if response.status = 200 then
    let results := response.results
    let total := response.totalCount
    let total_pages := total / page_size
    let rest := pageLoop srv (c.base_url ++ "/v1/categories") total_pages
      (categoriesParams page_size sort filter) results 0 total_pages
    (rest.1, req :: rest.2)
  else
    (.err ("Failed to retrieve records - " ++ toString response.status), [req])

/-- The query parameters `get_computer_inventory` builds: absent `sort` and
`sections` are stored as Python `None` (so `requests` omits them); there is
no `filter` key even though the signature accepts one. -/
def computerInventoryParams (page_size : Nat) (sort : Option (List String))
    (sections : Option (List String)) : Params :=
  let params : Params := [("page-size", .i page_size)]
  let params := dictSet params "sort"
    (if pyTruthyList sort then .s (String.intercalate "," (sort.getD [])) else .pnone)
  dictSet params "sections"
    (if pyTruthyList sections then
      .s ("section=" ++ String.intercalate "&section=" (sections.getD []))
     else .pnone)

/-- The initial request of `get_computer_inventory`. -/
def computerInventoryInitReq (c : Client) (page_size : Nat)
    (sort : Option (List String)) (sections : Option (List String)) : Request :=
  { method := .get
    url := c.base_url ++ "/v1/computers-inventory"
    params := computerInventoryParams page_size sort sections
    body := Option.none
    basicAuth := Option.none }

/-- `get_computer_inventory(sections, page_size, sort, filter)`: the `filter`
argument is ignored by the source; paging as in `get_categories`. -/
def get_computer_inventory (srv : Server) (c : Client)
    (sections : Option (List String)) (page_size : Nat)
    (sort : Option (List String)) : ListResult × List Request :=
  let req := computerInventoryInitReq c page_size sort sections
  let response := srv req
  if response.status = 200 then
    let results := response.results
    let total := response.totalCount
    let total_pages := total / page_size
    let rest := pageLoop srv (c.base_url ++ "/v1/computers-inventory") total_pages
      (computerInventoryParams page_size sort sections) results 0 total_pages
    (rest.1, req :: rest.2)
  else
    (.err ("Failed to retrieve records - " ++ toString response.status), [req])

/-- The query parameters `get_computers` builds: `page-size` plus `sort`
(absent serialized as the empty string); no `filter` parameter. -/
def computersParams (page_size : Nat) (sort : Option (List String)) : Params :=
  let params : Params := [("page-size", .i page_size)]
  dictSet params "sort"
    (if pyTruthyList sort then .s (String.intercalate "," (sort.getD [])) else .s "")

/-- The initial request of `get_computers`. -/
def computersInitReq (c : Client) (page_size : Nat)
    (sort : Option (List String)) : Request :=
  { method := .get
    url := c.base_url ++ "/preview/computers"
    params := computersParams page_size sort
    body := Option.none
    basicAuth := Option.none }

/-- `get_computers(page_size, sort)`: paging as in `get_categories` against
`{base}/preview/computers`. -/
def get_computers (srv : Server) (c : Client) (page_size : Nat)
    (sort : Option (List String)) : ListResult × List Request :=
  let req := computersInitReq c page_size sort
  let response := srv req
  if response.status = 200 then
    let results := response.results
    let total := response.totalCount
    let total_pages := total / page_size
    let rest := pageLoop srv (c.base_url ++ "/preview/computers") total_pages
      (computersParams page_size sort) results 0 total_pages
    (rest.1, req :: rest.2)
  else
    (.err ("Failed to retrieve records - " ++ toString response.status), [req])

/-! ## Single-record and command operations -/

/-- Outcome of `create_category`: the created record's JSON body (201), an
error dict, or an uncaught Python exception. -/
inductive CreateResult where
  | created (body : String)
  | err (msg : String)
  | exn (e : String)
deriving DecidableEq, Repr

/-- `create_category(name, priority)`: the source POSTs to
`f'{self.base_Url}/v1/categories'` — `base_Url` is not an attribute set by
`__init__` (which sets `base_url`), so evaluating the f-string raises
`AttributeError` before any request is issued. -/
def create_category (srv : Server) (c : Client) (name : String)
    (priority : Int) : CreateResult × List Request :=
  let payload : Params := [("name", .s name), ("priority", .i priority)]
  match pyGetAttr c "base_Url" with
  | Option.none => (.exn "AttributeError", [])
  | some b =>
      let req : Request :=
        { method := .post
          url := b ++ "/v1/categories"
          params := []
          body := some payload
          basicAuth := Option.none }
      let response := srv req
      if response.status = 201 then (.created response.body, [req])
      else (.err ("Failed to create record: " ++ toString response.status), [req])

/-- The request `add_category_note` issues: note that it carries no body and
does not depend on the `note` argument. -/
def categoryNoteReq (c : Client) (id : String) : Request :=
  { method := .post
    url := c.base_url ++ "/v1/categories/" ++ id ++ "/history"
    params := []
    body := Option.none
    basicAuth := Option.none }

/-- `add_category_note(id, note)`: POSTs `{base}/v1/categories/{id}/history`
with no body (the `note` argument is never used); returns `True` on 201,
`False` on 404 or 503, and falls off the end (Python `None`) otherwise. -/
def add_category_note (srv : Server) (c : Client) (id note : String) :
    Option Bool × List Request :=
  let req := categoryNoteReq c id
  let response := srv req
  (if response.status = 201 then some true
   else if response.status = 404 then some false
   else if response.status = 503 then some false
   else Option.none,
   [req])

/-- Outcome of `read_mdm_command` / `push_macos_updates`: the response's JSON
body on success, or the error dict the source returns. -/
inductive CmdResult where
  | ok (body : String)
  | err (msg : String)
deriving DecidableEq, Repr

/-- `read_mdm_command(uuids, client_mgmt_id)`: builds params from `uuids` if
truthy, else from `client_mgmt_id` if truthy, else returns
`[{'Error': 'No parameters specified!'}]` without issuing a request. -/
def read_mdm_command (srv : Server) (c : Client) (uuids : Option (List String))
    (client_mgmt_id : Option String) : CmdResult × List Request :=
  match (if pyTruthyList uuids then
           some [("uuids", PVal.strs (uuids.getD []))]
         else if pyTruthyStr client_mgmt_id then
           some [("client-management-id", PVal.s (client_mgmt_id.getD ""))]
         else Option.none : Option Params) with
  | Option.none => (.err "No parameters specified!", [])
  | some params =>
      let req : Request :=
        { method := .get
          url := c.base_url ++ "/v1/mdm/commands"
          params := params
          body := Option.none
          basicAuth := Option.none }
      let response := srv req
      if response.status = 200 then (.ok response.body, [req])
      else (.err ("Error retrieving mdm cmd - " ++ toString response.status), [req])

/-- The payload dict `push_macos_updates` constructs.  It reproduces the
source's bugs: the key `'skipVersionVerfication'` is misspelled, and the
entry `force_restart: force_restart` uses the boolean value itself as the
key.  The dict is built but never transmitted (the POST carries no body). -/
def pushUpdatesPayload (max_deferrals : Int) (version : String)
    (skip_version_verification apply_major_update : Bool)
    (update_action : String) (force_restart : Bool) : List (PKey × PVal) :=
  [ (.kstr "maxDeferrals", .i max_deferrals)
  , (.kstr "version", .s version)
  , (.kstr "skipVersionVerfication", .b skip_version_verification)
  , (.kstr "applyMajorUpdate", .b apply_major_update)
  , (.kstr "updateAction", .s update_action)
  , (.kbool force_restart, .b force_restart) ]

/-- `push_macos_updates(...)`: if neither `device_ids` nor `group_id` is
truthy, print and return `{'Error': 'No device/group IDs specified.'}`
without issuing any request; otherwise extend the payload and POST the
send-updates endpoint (without the payload — a source bug noted in the
spec); on 200 return the JSON body, else an error dict. -/
def push_macos_updates (srv : Server) (c : Client) (max_deferrals : Int)
    (version : String) (skip_version_verification apply_major_update : Bool)
    (update_action : String) (force_restart : Bool)
    (device_ids : Option (List Int)) (group_id : Option Int) :
    CmdResult × List Request :=
  let payload := pushUpdatesPayload max_deferrals version
    skip_version_verification apply_major_update update_action force_restart
  match (if pyTruthyIntList device_ids then
           some (payload ++ [(PKey.kstr "deviceIds", PVal.ints (device_ids.getD []))])
         else if pyTruthyInt group_id then
           some (payload ++ [(PKey.kstr "groupId", PVal.i (group_id.getD 0))])
         else Option.none : Option (List (PKey × PVal))) with
  | Option.none => (.err "No device/group IDs specified.", [])
  | some _payload =>
      let req : Request :=
        { method := .post
          url := c.base_url ++ "/v1/macos-managed-software-updates/send-updates"
          params := []
          body := Option.none
          basicAuth := Option.none }
      let response := srv req
      if response.status = 200 then (.ok response.body, [req])
      else (.err ("Error sending updates - " ++ toString response.status), [req])

/-! ## Observation helpers and concrete transport oracles -/

/-- The `page` query parameter of a request (the paging loop sets it with
`params['page'] = page`). -/
def pageParam (req : Request) : Option PVal := dictGet req.params "page"

/-- A server whose response depends only on the `page` parameter of the
request: convenient for stating pagination theorems. -/
def pageServer (f : Option PVal → JamfResponse) : Server :=
  fun req => f (pageParam req)

/-- A constant server: answers every request identically. -/
def constSrv (status totalCount : Nat) (results : List Record) (token : String) :
    Server :=
  fun _ =>
    { status := status
      body := ""
      results := results
      totalCount := totalCount
      token := token }

/-- A page-indexed oracle reporting 250 records total that answers page 1
with HTTP 500 and every other request with 200. -/
def srvFailPage1 : Option PVal → JamfResponse := fun p =>
  if p = some (PVal.i 1) then
    { status := 500, body := "", results := [], totalCount := 250, token := "" }
  else
    { status := 200, body := "", results := [], totalCount := 250, token := "" }

/-- A demonstration client instance. -/
def demoClient : Client := mkClient "admin" "hunter2" "jamf.example.com" true

/-! ## Basic dict lemmas -/

theorem dictGet_dictSet_self (d : Params) (k : String) (v : PVal) :
    dictGet (dictSet d k v) k = some v := by
  induction d with
  | nil => simp [dictSet, dictGet]
  | cons p d ih =>
      obtain ⟨k', v'⟩ := p
      by_cases h : k' = k
      · simp [dictSet, dictGet, h]
      · simp [dictSet, dictGet, h, ih]

theorem pageParam_categoriesInitReq (c : Client) (page_size : Nat)
    (sort : Option (List String)) (filter : Option String) :
    pageParam (categoriesInitReq c page_size sort filter) = Option.none := by
  simp [pageParam, categoriesInitReq, categoriesParams, dictSet, dictGet]

/-! ## The paging loop: request trace under an all-200 server -/

theorem pageLoop_trace (srv : Server) (url : String)
    (hok : ∀ req, (srv req).status = 200) :
    ∀ (fuel : Nat) (params : Params) (acc : List Record) (page total_pages : Nat),
      page ≤ total_pages → total_pages - page ≤ fuel →
      (pageLoop srv url fuel params acc page total_pages).2.map pageParam
        = (List.range' (page + 1) (total_pages - page)).map
            (fun n : Nat => some (PVal.i (Int.ofNat n))) := by
  intro fuel
  induction fuel with
  | zero =>
      intro params acc page total_pages hle hfuel
      have h0 : total_pages - page = 0 := Nat.le_zero.mp hfuel
      simp [pageLoop, h0]
  | succ fuel ih =>
      intro params acc page total_pages hle hfuel
      by_cases hpt : page = total_pages
      · simp [pageLoop, hpt]
      · have hlt : page < total_pages := lt_of_le_of_ne hle hpt
        have hstep : total_pages - page = (total_pages - (page + 1)) + 1 := by omega
        rw [hstep, List.range'_succ]
        simp only [pageLoop, if_neg hpt, hok, if_pos]
        simp only [List.map_cons]
        refine congrArg₂ List.cons ?_ ?_
        · exact dictGet_dictSet_self params "page" (PVal.i ((page + 1 : Nat) : Int))
        · exact ih _ _ (page + 1) total_pages hlt (by omega)

/-! ## The paging loop: a failing page aborts with an error, discarding `acc` -/

theorem pageLoop_fail (f : Option PVal → JamfResponse) (url : String)
    (k total_pages : Nat) (hk : k ≤ total_pages)
    (hfail : (f (some (PVal.i (k : Int)))).status ≠ 200)
    (hbefore : ∀ j : Nat, 1 ≤ j → j < k → (f (some (PVal.i (j : Int)))).status = 200) :
    ∀ (fuel : Nat) (params : Params) (acc : List Record) (page : Nat),
      page < k → k - page ≤ fuel →
      (pageLoop (pageServer f) url fuel params acc page total_pages).1
        = ListResult.err ("Failed iteration - "
            ++ toString (f (some (PVal.i (k : Int)))).status) := by
  intro fuel
  induction fuel with
  | zero => intro params acc page hpk hfuel; omega
  | succ fuel ih =>
      intro params acc page hpk hfuel
      have hpt : page ≠ total_pages := by omega
      have hresp : pageServer f
          { method := .get
            url := url
            params := dictSet params "page" (PVal.i ((page + 1 : Nat) : Int))
            body := Option.none
            basicAuth := Option.none }
          = f (some (PVal.i ((page + 1 : Nat) : Int))) := by
        simp [pageServer, pageParam, dictGet_dictSet_self]
      simp only [pageLoop, if_neg hpt, hresp]
      by_cases hstep : page + 1 = k
      · rw [hstep, if_neg hfail]
      · have h1 : page + 1 < k := by omega
        rw [if_pos (hbefore (page + 1) (by omega) h1)]
        exact ih _ _ (page + 1) h1 (by omega)

/-! ## Claim theorems -/

/-- C1: under a transport that answers every request with status 200 and
reports `totalCount = total` on the initial request, `get_categories` issues
exactly `1 + total / page_size` requests, the first without a `page`
parameter and the rest with `page = 1, 2, ..., total / page_size` in
strictly increasing order (so an exact multiple still gets the extra final
request). -/
theorem get_categories_request_count_and_order (srv : Server) (c : Client)
    (page_size : Nat) (sort : Option (List String)) (filter : Option String)
    (total : Nat) (hps : 0 < page_size)
    (hok : ∀ req, (srv req).status = 200)
    (htot : (srv (categoriesInitReq c page_size sort filter)).totalCount = total) :
    (get_categories srv c page_size sort filter).2.length = 1 + total / page_size ∧
    (get_categories srv c page_size sort filter).2.map pageParam
      = Option.none :: (List.range' 1 (total / page_size)).map
          (fun n : Nat => some (PVal.i (Int.ofNat n))) := by
  have hmap : (get_categories srv c page_size sort filter).2.map pageParam
      = Option.none :: (List.range' 1 (total / page_size)).map
          (fun n : Nat => some (PVal.i (Int.ofNat n))) := by
    simp only [get_categories, hok, if_pos, htot, List.map_cons]
    refine congrArg₂ List.cons (pageParam_categoriesInitReq c page_size sort filter) ?_
    have := pageLoop_trace srv (c.base_url ++ "/v1/categories") hok
      (total / page_size) (categoriesParams page_size sort filter)
      (srv (categoriesInitReq c page_size sort filter)).results 0 (total / page_size)
      (Nat.zero_le _) (Nat.sub_le _ _)
    simpa using this
  refine ⟨?_, hmap⟩
  have hlen := congrArg List.length hmap
  simp only [List.length_map, List.length_cons, List.length_range'] at hlen
  omega

/-- C1 witness: Scenario 2 of the spec — `totalCount = 100`,
`page_size = 100`: two requests, pages `[none, 1]`. -/
theorem get_categories_request_count_and_order_witness :
    0 < 100 ∧
    (∀ req, (constSrv 200 100 [] "" req).status = 200) ∧
    (constSrv 200 100 [] ""
        (categoriesInitReq demoClient 100 Option.none Option.none)).totalCount = 100 ∧
    ((get_categories (constSrv 200 100 [] "") demoClient 100
        Option.none Option.none).2.length = 1 + 100 / 100 ∧
     (get_categories (constSrv 200 100 [] "") demoClient 100
        Option.none Option.none).2.map pageParam
       = Option.none :: (List.range' 1 (100 / 100)).map
           (fun n : Nat => some (PVal.i (Int.ofNat n)))) :=
  ⟨by decide, fun _ => rfl, rfl,
   get_categories_request_count_and_order (constSrv 200 100 [] "") demoClient 100
     Option.none Option.none 100 (by decide) (fun _ => rfl) rfl⟩

/-- C2: at input `id = "42"`, `page_size = 100` against a 200-server that
reports `totalCount = 150`, `get_category_history` issues two requests, and
the second targets `{base}/v1/categories` — a different endpoint from the
category-history endpoint of the initial request. -/
theorem get_category_history_second_request_wrong_endpoint :
    ((get_category_history (constSrv 200 150 [] "") demoClient "42" 100
        Option.none Option.none).2.map Request.url
      = ["https://jamf.example.com/api/v1/categories/42/history",
         "https://jamf.example.com/api/v1/categories"]) ∧
    "https://jamf.example.com/api/v1/categories"
      ≠ "https://jamf.example.com/api/v1/categories/42/history" := by
  constructor
  · rfl
  · decide

/-- C3: if the initial `get_categories` request succeeds with
`totalCount = total` but some later page `k` (with `1 ≤ k ≤ total /
page_size`, all pages before it succeeding) returns a non-200 status, the
overall result is the error value naming that status, and the records
accumulated from earlier pages are discarded (the result is the error
constructor, not a record list). -/
theorem get_categories_page_failure_discards_records
    (f : Option PVal → JamfResponse) (c : Client) (page_size total k : Nat)
    (sort : Option (List String)) (filter : Option String)
    (hps : 0 < page_size)
    (hinit : (f Option.none).status = 200)
    (htot : (f Option.none).totalCount = total)
    (hk1 : 1 ≤ k) (hk2 : k ≤ total / page_size)
    (hfail : (f (some (PVal.i (k : Int)))).status ≠ 200)
    (hbefore : ∀ j : Nat, 1 ≤ j → j < k → (f (some (PVal.i (j : Int)))).status = 200) :
    (get_categories (pageServer f) c page_size sort filter).1
      = ListResult.err ("Failed iteration - "
          ++ toString (f (some (PVal.i (k : Int)))).status) := by
  have hinitResp : pageServer f (categoriesInitReq c page_size sort filter)
      = f Option.none := by
    simp [pageServer, pageParam_categoriesInitReq]
  simp only [get_categories, hinitResp, hinit, if_pos, htot]
  exact pageLoop_fail f (c.base_url ++ "/v1/categories") k (total / page_size) hk2
    hfail hbefore (total / page_size) (categoriesParams page_size sort filter)
    (f Option.none).results 0 hk1 (by omega)

/-- C3 witness: Scenario 3 of the spec — `totalCount = 250`,
`page_size = 100`, page 1 answers 500: the fetch yields the error value
`Failed iteration - 500`. -/
theorem get_categories_page_failure_discards_records_witness :
    0 < 100 ∧
    (srvFailPage1 Option.none).status = 200 ∧
    (srvFailPage1 Option.none).totalCount = 250 ∧
    1 ≤ 1 ∧ 1 ≤ 250 / 100 ∧
    (srvFailPage1 (some (PVal.i (1 : Int)))).status ≠ 200 ∧
    (get_categories (pageServer srvFailPage1) demoClient 100
        Option.none Option.none).1
      = ListResult.err "Failed iteration - 500" :=
  ⟨by decide, rfl, rfl, by decide, by decide, by decide,
   get_categories_page_failure_discards_records srvFailPage1 demoClient 100 250 1
     Option.none Option.none (by decide) rfl rfl (by decide) (by decide)
     (by decide) (fun j h1 hj => absurd (lt_of_le_of_lt h1 hj) (by decide))⟩

/-- C4: `authenticate` on a 200 token response replaces the session headers
with exactly the bearer header `Authorization: Bearer <token>`; on any
non-200 response it returns the failure string `'Authentication failed!'`
and leaves the session state unchanged (the embedding is total, so no
exception is raised). -/
theorem authenticate_sets_bearer_or_leaves_state (srv : Server) (c : Client)
    (st : SessionState) :
    ((srv (authReq c)).status = 200 →
      authenticate srv c st
        = (Option.none,
           { headers := [("Authorization", "Bearer " ++ (srv (authReq c)).token)] },
           [authReq c])) ∧
    ((srv (authReq c)).status ≠ 200 →
      authenticate srv c st = (some "Authentication failed!", st, [authReq c])) := by
  constructor <;> intro h <;> simp [authenticate, h]

/-- C4 witness: a 200 server with token `tok` attaches `Bearer tok`; a 401
server leaves the empty header state unchanged and reports failure. -/
theorem authenticate_sets_bearer_or_leaves_state_witness :
    ((constSrv 200 0 [] "tok" (authReq demoClient)).status = 200 ∧
     authenticate (constSrv 200 0 [] "tok") demoClient { headers := [] }
       = (Option.none, { headers := [("Authorization", "Bearer tok")] },
          [authReq demoClient])) ∧
    ((constSrv 401 0 [] "" (authReq demoClient)).status ≠ 200 ∧
     authenticate (constSrv 401 0 [] "") demoClient { headers := [] }
       = (some "Authentication failed!", { headers := [] }, [authReq demoClient])) :=
  ⟨⟨rfl, (authenticate_sets_bearer_or_leaves_state
      (constSrv 200 0 [] "tok") demoClient { headers := [] }).1 rfl⟩,
   ⟨by decide, (authenticate_sets_bearer_or_leaves_state
      (constSrv 401 0 [] "") demoClient { headers := [] }).2 (by decide)⟩⟩

/-- C5: counter-evidence — on a 200 keep-alive response with token `tok`,
`refresh_token` sets the Authorization value to `Beaerer tok` (the source
misspells the scheme), which differs from the `Bearer tok` form
`authenticate` attaches for the same token. -/
theorem refresh_token_misspells_bearer :
    (refresh_token (constSrv 200 0 [] "tok") demoClient { headers := [] }).2.1.headers
      = [("Authorization", "Beaerer tok")] ∧
    (refresh_token (constSrv 200 0 [] "tok") demoClient { headers := [] }).2.1.headers
      ≠ [("Authorization", "Bearer tok")] ∧
    (authenticate (constSrv 200 0 [] "tok") demoClient { headers := [] }).2.1.headers
      = [("Authorization", "Bearer tok")] := by
  refine ⟨rfl, ?_, rfl⟩
  decide

/-- C6 counterexample: `get_computer_inventory` called with `sort` absent
issues its one request with the `sort` parameter bound to Python `None`
(`PVal.pnone`) — not the empty string the claim asserts for every listing
operation. -/
theorem get_computer_inventory_absent_sort_is_pynone :
    ((get_computer_inventory (constSrv 200 0 [] "") demoClient Option.none 100
        Option.none).2.map (fun r => dictGet r.params "sort"))
      = [some PVal.pnone] ∧
    some PVal.pnone ≠ some (PVal.s "") := by
  constructor
  · rfl
  · decide

/-- C6 amended: absent `sort` and `filter` serialize to the empty string in
`get_categories`, `get_category_history` and `get_computers`; but
`get_computer_inventory` stores Python `None` for absent `sort` and
`sections` (so `requests` omits them), and builds no `filter` parameter at
all. -/
theorem absent_optional_params_serialization (c : Client) (page_size : Nat)
    (id : String) :
    dictGet (categoriesInitReq c page_size Option.none Option.none).params "sort"
      = some (PVal.s "") ∧
    dictGet (categoriesInitReq c page_size Option.none Option.none).params "filter"
      = some (PVal.s "") ∧
    dictGet (categoryHistoryInitReq c id page_size Option.none Option.none).params "sort"
      = some (PVal.s "") ∧
    dictGet (categoryHistoryInitReq c id page_size Option.none Option.none).params "filter"
      = some (PVal.s "") ∧
    dictGet (computersInitReq c page_size Option.none).params "sort"
      = some (PVal.s "") ∧
    dictGet (computerInventoryInitReq c page_size Option.none Option.none).params "sort"
      = some PVal.pnone ∧
    dictGet (computerInventoryInitReq c page_size Option.none Option.none).params "sections"
      = some PVal.pnone ∧
    (computerInventoryInitReq c page_size Option.none Option.none).params.all
      (fun p => p.1 ≠ "filter") := by
  refine ⟨?_, ?_, ?_, ?_, ?_, ?_, ?_, ?_⟩ <;>
    simp [categoriesInitReq, categoryHistoryInitReq, computersInitReq,
      computerInventoryInitReq, categoriesParams, computersParams,
      computerInventoryParams, pyTruthyList, pyTruthyStr, dictSet, dictGet]

/-- C7: with neither member of the mutually-exclusive parameter pair
supplied, `push_macos_updates` and `read_mdm_command` return their
missing-parameters error values with an empty request trace — no network
call is made. -/
theorem missing_params_issue_no_request (srv : Server) (c : Client)
    (max_deferrals : Int) (version update_action : String)
    (skip_version_verification apply_major_update force_restart : Bool) :
    push_macos_updates srv c max_deferrals version skip_version_verification
        apply_major_update update_action force_restart Option.none Option.none
      = (CmdResult.err "No device/group IDs specified.", []) ∧
    read_mdm_command srv c Option.none Option.none
      = (CmdResult.err "No parameters specified!", []) :=
  ⟨rfl, rfl⟩

/-- C8: `invalidate_token` returns `true` exactly when the invalidation
endpoint answers 204, issues exactly that one request, and leaves the
session state (headers, and with them any authentication evidence)
untouched. -/
theorem invalidate_token_status_keyed_and_frame (srv : Server) (c : Client)
    (st : SessionState) :
    ((invalidate_token srv c st).1 = true ↔ (srv (invalidateReq c)).status = 204) ∧
    (invalidate_token srv c st).2.1 = st ∧
    (invalidate_token srv c st).2.2 = [invalidateReq c] := by
  refine ⟨?_, rfl, rfl⟩
  simp [invalidate_token]

/-- C9: counter-evidence — `create_category` always raises `AttributeError`
(the source reads the undefined attribute `base_Url`; `__init__` only sets
`base_url`) and issues no request, for every server, client construction and
argument: it never returns the structured created/error result the claim
describes. -/
theorem create_category_always_raises_attribute_error (srv : Server)
    (username password base_url : String) (verify_cert : Bool)
    (name : String) (priority : Int) :
    create_category srv (mkClient username password base_url verify_cert)
        name priority
      = (CreateResult.exn "AttributeError", []) := rfl

/-- C10: for any response status outside `{201, 404, 503}` (e.g. 500),
`add_category_note` returns Python `None` rather than a boolean, and the one
request it issues carries no body — the `note` argument is never
transmitted. -/
theorem add_category_note_fallthrough_and_no_body (srv : Server) (c : Client)
    (id note : String)
    (h201 : (srv (categoryNoteReq c id)).status ≠ 201)
    (h404 : (srv (categoryNoteReq c id)).status ≠ 404)
    (h503 : (srv (categoryNoteReq c id)).status ≠ 503) :
    (add_category_note srv c id note).1 = Option.none ∧
    (add_category_note srv c id note).2 = [categoryNoteReq c id] ∧
    (categoryNoteReq c id).body = Option.none := by
  refine ⟨?_, rfl, rfl⟩
  simp [add_category_note, h201, h404, h503]

/-- C10 witness: a server answering 500 — the call returns `None` (neither
`True` nor `False`) and its single request has no body. -/
theorem add_category_note_fallthrough_and_no_body_witness :
    ((constSrv 500 0 [] "" (categoryNoteReq demoClient "7")).status ≠ 201 ∧
     (constSrv 500 0 [] "" (categoryNoteReq demoClient "7")).status ≠ 404 ∧
     (constSrv 500 0 [] "" (categoryNoteReq demoClient "7")).status ≠ 503) ∧
    ((add_category_note (constSrv 500 0 [] "") demoClient "7" "a note").1
        = Option.none ∧
     (add_category_note (constSrv 500 0 [] "") demoClient "7" "a note").2
        = [categoryNoteReq demoClient "7"] ∧
     (categoryNoteReq demoClient "7").body = Option.none) :=
  ⟨⟨by decide, by decide, by decide⟩,
   add_category_note_fallthrough_and_no_body (constSrv 500 0 [] "") demoClient
     "7" "a note" (by decide) (by decide) (by decide)⟩

end JamfClient
